import Mathlib

/-!
Verification of the Masai Mara co-occurrence dashboard core.

The definitions below are a shallow embedding of the pipeline shared by
src/app.py and src/shraddha.py: season classification (get_season),
year-range enrichment (load_data, src/app.py line 52), sidebar filtering
(filtered, src/app.py lines 118-125), floor-division grid binning
(cellOf, src/app.py lines 167-168), general co-occurrence detection
(general_cells, src/shraddha.py lines 160-167 / cooccur_cells in
src/app.py lines 170-177), and pairwise co-occurrence detection
(pair_df / pair_cells, src/shraddha.py lines 181-190).

Observations are dataframe rows after parsing: species string, planar
coordinates x/y in meters (the EPSG:32736 projection applied by to_crs is
an external per-row step, so observations here already carry planar
coordinates, modelled as rationals), and integer year and month. Zone
sets are modelled as Finsets, matching the order-irrelevant set of rows
a pandas groupby produces.
-/

namespace MasaiMara

/-- A dataframe row entering the core pipeline: species identifier,
planar (projected) coordinates in meters, and the event year and month. -/
structure Obs where
  species : String
  x : ℚ
  y : ℚ
  year : Int
  month : Int
deriving DecidableEq, Repr

/-- Season classifier, from get_season in src/app.py lines 56-64
(identical in src/shraddha.py lines 44-52 and src/Trial.py lines 34-42):
months 12,1,2 map to Dry; 3,4,5 to Long Rains; 6,7,8 to Migration Peak;
everything else falls into the final else branch, Short Rains. -/
def get_season (m : Int) : String :=
  if m = 12 ∨ m = 1 ∨ m = 2 then "Dry"
  else if m = 3 ∨ m = 4 ∨ m = 5 then "Long Rains"
  else if m = 6 ∨ m = 7 ∨ m = 8 then "Migration Peak"
  else "Short Rains"

/-- The season column, computed once at enrichment from the month
(src/app.py line 66). -/
def Obs.season (o : Obs) : String := get_season o.month

/-- The four season values the dashboard uses. -/
def seasons : List String := ["Dry", "Long Rains", "Migration Peak", "Short Rains"]

/-- Grid cell size in meters, grid_size = 5000 in src/app.py line 165. -/
def grid_size : ℚ := 5000

/-- Year restriction applied during enrichment, src/app.py line 52 and
src/shraddha.py line 40: rows whose year is outside [1990, 2025] are
dropped before any filtering or detection. -/
def load_data (rows : List Obs) : List Obs :=
  rows.filter (fun o => decide (1990 ≤ o.year ∧ o.year ≤ 2025))

/-- Sidebar filter, src/app.py lines 118-125: keep rows whose species is
in the selection and whose year lies in the slider range, then apply the
optional season filter (none models the All choice). -/
def filtered (allow : List String) (y1 y2 : Int) (season : Option String)
    (obs : List Obs) : List Obs :=
  let base := obs.filter (fun o => decide (o.species ∈ allow ∧ y1 ≤ o.year ∧ o.year ≤ y2))
  match season with
  | none => base
  | some se => base.filter (fun o => decide (Obs.season o = se))

/-- Grid-cell assignment, src/app.py lines 167-168: floor division of
each planar coordinate by the cell size. -/
def cellOf (s : ℚ) (o : Obs) : ℤ × ℤ := (⌊o.x / s⌋, ⌊o.y / s⌋)

/-- The set of grid cells occupied by at least one observation; these
are exactly the groups a groupby on (gx, gy) produces. -/
def occupiedCells (s : ℚ) (obs : List Obs) : Finset (ℤ × ℤ) :=
  (obs.map (cellOf s)).toFinset

/-- The set of distinct species observed in one grid cell; its card is
the species nunique of that groupby group. -/
def speciesIn (s : ℚ) (obs : List Obs) (c : ℤ × ℤ) : Finset String :=
  ((obs.filter (fun o => decide (cellOf s o = c))).map Obs.species).toFinset

/-- General-mode co-occurrence cells, src/shraddha.py lines 160-167 and
src/app.py lines 170-177: occupied cells whose distinct species count is
at least 2. -/
def general_cells (s : ℚ) (obs : List Obs) : Finset (ℤ × ℤ) :=
  (occupiedCells s obs).filter (fun c => 2 ≤ (speciesIn s obs c).card)

/-- General-mode zones with their species counts, the rows of the
cooccur_cells dataframe after the threshold filter. -/
def general_zones (s : ℚ) (obs : List Obs) : Finset ((ℤ × ℤ) × ℕ) :=
  (general_cells s obs).image (fun c => (c, (speciesIn s obs c).card))

/-- Pairwise restriction, src/shraddha.py line 181: keep rows whose
species is one of the two nominated species. -/
def pair_df (a b : String) (obs : List Obs) : List Obs :=
  obs.filter (fun o => decide (o.species = a ∨ o.species = b))

/-- Pairwise co-occurrence cells, src/shraddha.py lines 183-190: group
the restricted rows by cell and keep cells whose distinct species count
is exactly 2. -/
def pair_cells (a b : String) (s : ℚ) (obs : List Obs) : Finset (ℤ × ℤ) :=
  (occupiedCells s (pair_df a b obs)).filter
    (fun c => (speciesIn s (pair_df a b obs) c).card = 2)

/-- Pairwise zones with their species counts. -/
def pair_zones (a b : String) (s : ℚ) (obs : List Obs) : Finset ((ℤ × ℤ) × ℕ) :=
  (pair_cells a b s obs).image (fun c => (c, (speciesIn s (pair_df a b obs) c).card))

/-- Rendering guard for pairwise zones, src/shraddha.py line 251:
pairwise markers are drawn only when the checkbox is on and the two
nominated species differ. -/
def show_pairwise_guard (checkbox : Bool) (a b : String) : Bool :=
  checkbox && !(a == b)

/-! Concrete observations used to instantiate the theorems. -/

/-- A lion sighting projected into cell (0, 0). -/
def oLion1 : Obs := { species := "Panthera leo", x := 100, y := 100, year := 2010, month := 1 }

/-- A second lion sighting, also in cell (0, 0). -/
def oLion2 : Obs := { species := "Panthera leo", x := 200, y := 300, year := 2011, month := 7 }

/-- An elephant sighting in cell (0, 0). -/
def oElephant : Obs :=
  { species := "Loxodonta africana", x := 300, y := 400, year := 2012, month := 4 }

/-- A lion sighting from 1980, outside the enrichment year window. -/
def oOld : Obs := { species := "Panthera leo", x := 100, y := 100, year := 1980, month := 1 }

/-- The sighting at planar coordinates (4999, 100) from the boundary scenario. -/
def oBoundaryA : Obs :=
  { species := "Panthera leo", x := 4999, y := 100, year := 2010, month := 1 }

/-- The sighting at planar coordinates (5000, 100) from the boundary scenario. -/
def oBoundaryB : Obs :=
  { species := "Loxodonta africana", x := 5000, y := 100, year := 2010, month := 1 }

/-! Membership characterizations of the embedded pipeline stages. -/

lemma mem_speciesIn {s : ℚ} {obs : List Obs} {c : ℤ × ℤ} {sp : String} :
    sp ∈ speciesIn s obs c ↔ ∃ o ∈ obs, o.species = sp ∧ cellOf s o = c := by
  unfold speciesIn
  rw [List.mem_toFinset]
  simp only [List.mem_map, List.mem_filter, decide_eq_true_eq]
  constructor
  · rintro ⟨o, ⟨ho, hc⟩, hsp⟩
    exact ⟨o, ho, hsp, hc⟩
  · rintro ⟨o, ho, hsp, hc⟩
    exact ⟨o, ⟨ho, hc⟩, hsp⟩

lemma mem_occupiedCells {s : ℚ} {obs : List Obs} {c : ℤ × ℤ} :
    c ∈ occupiedCells s obs ↔ ∃ o ∈ obs, cellOf s o = c := by
  unfold occupiedCells
  rw [List.mem_toFinset]
  simp [List.mem_map]

lemma mem_general_cells {s : ℚ} {obs : List Obs} {c : ℤ × ℤ} :
    c ∈ general_cells s obs ↔ 2 ≤ (speciesIn s obs c).card := by
  unfold general_cells
  rw [Finset.mem_filter]
  constructor
  · exact fun h => h.2
  · intro h
    refine ⟨?_, h⟩
    have hpos : 0 < (speciesIn s obs c).card := by omega
    rcases Finset.card_pos.mp hpos with ⟨sp, hsp⟩
    rcases mem_speciesIn.mp hsp with ⟨o, ho, -, hc⟩
    exact mem_occupiedCells.mpr ⟨o, ho, hc⟩

lemma mem_pair_df {a b : String} {obs : List Obs} {o : Obs} :
    o ∈ pair_df a b obs ↔ o ∈ obs ∧ (o.species = a ∨ o.species = b) := by
  unfold pair_df
  simp [List.mem_filter]

lemma speciesIn_pair_subset {a b : String} {s : ℚ} {obs : List Obs} {c : ℤ × ℤ} :
    speciesIn s (pair_df a b obs) c ⊆ {a, b} := by
  intro sp hsp
  rcases mem_speciesIn.mp hsp with ⟨o, ho, hsp2, -⟩
  rcases (mem_pair_df.mp ho).2 with h | h
  · rw [Finset.mem_insert]
    exact Or.inl (hsp2 ▸ h.symm ▸ rfl)
  · rw [Finset.mem_insert, Finset.mem_singleton]
    exact Or.inr (hsp2 ▸ h.symm ▸ rfl)

lemma mem_pair_cells {a b : String} (hab : a ≠ b) {s : ℚ} {obs : List Obs} {c : ℤ × ℤ} :
    c ∈ pair_cells a b s obs ↔
      (∃ o ∈ obs, o.species = a ∧ cellOf s o = c) ∧
        ∃ o ∈ obs, o.species = b ∧ cellOf s o = c := by
  unfold pair_cells
  rw [Finset.mem_filter]
  constructor
  · rintro ⟨-, hcard⟩
    have hsub := @speciesIn_pair_subset a b s obs c
    have ha : a ∈ speciesIn s (pair_df a b obs) c := by
      by_contra hna
      have hsubb : speciesIn s (pair_df a b obs) c ⊆ {b} := by
        intro sp hsp
        rcases Finset.mem_insert.mp (hsub hsp) with rfl | h
        · exact absurd hsp hna
        · exact h
      have := Finset.card_le_card hsubb
      rw [Finset.card_singleton] at this
      omega
    have hb : b ∈ speciesIn s (pair_df a b obs) c := by
      by_contra hnb
      have hsuba : speciesIn s (pair_df a b obs) c ⊆ {a} := by
        intro sp hsp
        rcases Finset.mem_insert.mp (hsub hsp) with rfl | h
        · exact Finset.mem_singleton_self sp
        · rw [Finset.mem_singleton] at h
          exact absurd (h ▸ hsp) hnb
      have := Finset.card_le_card hsuba
      rw [Finset.card_singleton] at this
      omega
    rcases mem_speciesIn.mp ha with ⟨oa, hoa, hoas, hoac⟩
    rcases mem_speciesIn.mp hb with ⟨oc, hoc, hocs, hocc⟩
    exact ⟨⟨oa, (mem_pair_df.mp hoa).1, hoas, hoac⟩, ⟨oc, (mem_pair_df.mp hoc).1, hocs, hocc⟩⟩
  · rintro ⟨⟨oa, hoa, hoas, hoac⟩, ⟨oc, hoc, hocs, hocc⟩⟩
    have hoa2 : oa ∈ pair_df a b obs := mem_pair_df.mpr ⟨hoa, Or.inl hoas⟩
    have hoc2 : oc ∈ pair_df a b obs := mem_pair_df.mpr ⟨hoc, Or.inr hocs⟩
    have ha : a ∈ speciesIn s (pair_df a b obs) c := mem_speciesIn.mpr ⟨oa, hoa2, hoas, hoac⟩
    have hb : b ∈ speciesIn s (pair_df a b obs) c := mem_speciesIn.mpr ⟨oc, hoc2, hocs, hocc⟩
    refine ⟨mem_occupiedCells.mpr ⟨oa, hoa2, hoac⟩, ?_⟩
    have hsub := @speciesIn_pair_subset a b s obs c
    have hsup : ({a, b} : Finset String) ⊆ speciesIn s (pair_df a b obs) c := by
      intro sp hsp
      rcases Finset.mem_insert.mp hsp with rfl | h
      · exact ha
      · rw [Finset.mem_singleton] at h
        exact h ▸ hb
    have heq : speciesIn s (pair_df a b obs) c = {a, b} :=
      Finset.Subset.antisymm hsub hsup
    rw [heq, Finset.card_insert_of_not_mem (by simpa using hab), Finset.card_singleton]

lemma speciesIn_mono {s : ℚ} {c : ℤ × ℤ} {l1 l2 : List Obs}
    (h : ∀ o ∈ l1, o ∈ l2) : speciesIn s l1 c ⊆ speciesIn s l2 c := by
  intro sp hsp
  rcases mem_speciesIn.mp hsp with ⟨o, ho, hsp2, hc⟩
  exact mem_speciesIn.mpr ⟨o, h o ho, hsp2, hc⟩

lemma speciesIn_perm {s : ℚ} {c : ℤ × ℤ} {l1 l2 : List Obs} (h : l1.Perm l2) :
    speciesIn s l1 c = speciesIn s l2 c := by
  ext sp
  rw [mem_speciesIn, mem_speciesIn]
  constructor
  · rintro ⟨o, ho, rest⟩
    exact ⟨o, h.mem_iff.mp ho, rest⟩
  · rintro ⟨o, ho, rest⟩
    exact ⟨o, h.mem_iff.mpr ho, rest⟩

lemma occupiedCells_perm {s : ℚ} {l1 l2 : List Obs} (h : l1.Perm l2) :
    occupiedCells s l1 = occupiedCells s l2 := by
  ext c
  rw [mem_occupiedCells, mem_occupiedCells]
  constructor
  · rintro ⟨o, ho, rest⟩
    exact ⟨o, h.mem_iff.mp ho, rest⟩
  · rintro ⟨o, ho, rest⟩
    exact ⟨o, h.mem_iff.mpr ho, rest⟩

lemma general_cells_perm {s : ℚ} {l1 l2 : List Obs} (h : l1.Perm l2) :
    general_cells s l1 = general_cells s l2 := by
  unfold general_cells
  rw [occupiedCells_perm h]
  exact Finset.filter_congr fun c _ => by rw [speciesIn_perm h]

lemma mem_filtered {allow : List String} {y1 y2 : Int} {season : Option String}
    {obs : List Obs} {o : Obs} :
    o ∈ filtered allow y1 y2 season obs ↔
      (o ∈ obs ∧ o.species ∈ allow ∧ y1 ≤ o.year ∧ o.year ≤ y2) ∧
        ∀ se ∈ season, Obs.season o = se := by
  cases season <;>
    simp [filtered, List.mem_filter, decide_eq_true_eq, and_assoc] <;>
    tauto

lemma pair_cells_self (a : String) (s : ℚ) (obs : List Obs) :
    pair_cells a a s obs = ∅ := by
  unfold pair_cells
  rw [Finset.filter_eq_empty_iff]
  intro c _
  have hsub : speciesIn s (pair_df a a obs) c ⊆ {a} := by
    intro sp hsp
    rcases mem_speciesIn.mp hsp with ⟨o, ho, hsp2, -⟩
    rw [Finset.mem_singleton, ← hsp2]
    rcases (mem_pair_df.mp ho).2 with h | h <;> exact h
  have := Finset.card_le_card hsub
  rw [Finset.card_singleton] at this
  omega

lemma mem_load_data {rows : List Obs} {o : Obs} :
    o ∈ load_data rows ↔ o ∈ rows ∧ 1990 ≤ o.year ∧ o.year ≤ 2025 := by
  unfold load_data
  simp [List.mem_filter]

/-! Concrete cell computations for the instantiations. -/

lemma cellOf_oLion1 : cellOf 5000 oLion1 = (0, 0) := by
  unfold cellOf oLion1
  norm_num

lemma cellOf_oElephant : cellOf 5000 oElephant = (0, 0) := by
  unfold cellOf oElephant
  norm_num

/-! Claim theorems. -/

/-- C1: general-mode detection emits a co-occurrence zone for a grid
cell iff the cell's count of distinct species among the observations is
at least 2, and a cell all of whose observations share one species_id is
never emitted, no matter how many observations it holds. -/
theorem general_zone_iff_two_distinct_species (s : ℚ) (obs : List Obs) (c : ℤ × ℤ) :
    (c ∈ general_cells s obs ↔ 2 ≤ (speciesIn s obs c).card) ∧
      ∀ sp : String, (∀ o ∈ obs, cellOf s o = c → o.species = sp) →
        c ∉ general_cells s obs := by
  refine ⟨mem_general_cells, ?_⟩
  intro sp hall hc
  have h2 := mem_general_cells.mp hc
  have hsub : speciesIn s obs c ⊆ {sp} := by
    intro q hq
    rcases mem_speciesIn.mp hq with ⟨o, ho, hqs, hcell⟩
    rw [Finset.mem_singleton, ← hqs]
    exact hall o ho hcell
  have := Finset.card_le_card hsub
  rw [Finset.card_singleton] at this
  omega

/-- C1 instantiation: a cell holding two lion sightings and nothing else
is not a co-occurrence zone. -/
theorem general_zone_iff_two_distinct_species_witness :
    (0, 0) ∉ general_cells 5000 [oLion1, oLion2] :=
  (general_zone_iff_two_distinct_species 5000 [oLion1, oLion2] (0, 0)).2 "Panthera leo"
    (by
      intro o ho _
      rcases List.mem_cons.mp ho with rfl | ho2
      · rfl
      · rcases List.mem_cons.mp ho2 with rfl | ho3
        · rfl
        · exact absurd ho3 (List.not_mem_nil o))

/-- C2: with distinct nominated species A and B, a pairwise zone exists
for a cell iff the cell contains at least one observation of A and at
least one of B; a cell whose observations include none of B (so only A
among the pair) is never emitted. -/
theorem pairwise_zone_iff_both_present (a b : String) (s : ℚ) (obs : List Obs)
    (c : ℤ × ℤ) (hab : a ≠ b) :
    (c ∈ pair_cells a b s obs ↔
      (∃ o ∈ obs, o.species = a ∧ cellOf s o = c) ∧
        ∃ o ∈ obs, o.species = b ∧ cellOf s o = c) ∧
      ((¬ ∃ o ∈ obs, o.species = b ∧ cellOf s o = c) → c ∉ pair_cells a b s obs) := by
  refine ⟨mem_pair_cells hab, ?_⟩
  intro hnb hc
  exact hnb ((mem_pair_cells hab).mp hc).2

/-- C2 instantiation: a cell holding one lion and one elephant sighting
is a pairwise zone for (lion, elephant). -/
theorem pairwise_zone_iff_both_present_witness :
    (0, 0) ∈ pair_cells "Panthera leo" "Loxodonta africana" 5000 [oLion1, oElephant] :=
  (pairwise_zone_iff_both_present "Panthera leo" "Loxodonta africana" 5000
      [oLion1, oElephant] (0, 0) (by decide)).1.mpr
    ⟨⟨oLion1, by simp, rfl, cellOf_oLion1⟩, ⟨oElephant, by simp, rfl, cellOf_oElephant⟩⟩

/-- C3 counterexample: nominating the same species twice does not report
any precondition violation; the pipeline is total and silently returns
the empty zone set even on a nonempty observation list that contains
that species. -/
theorem pairwise_same_species_counterexample :
    pair_cells "Panthera leo" "Panthera leo" 5000 [oLion1, oLion2] = ∅ ∧
      [oLion1, oLion2] ≠ [] ∧ oLion1.species = "Panthera leo" :=
  ⟨pair_cells_self _ _ _, by simp, rfl⟩

/-- C3 amended: when the two nominated species are equal the pairwise
pipeline yields an empty zone set with no error — the species
restriction keeps only that species, every cell's distinct count is at
most 1, so no cell passes the count == 2 test — and the UI merely skips
drawing pairwise markers via the pair_a != pair_b guard. -/
theorem pairwise_same_species_silent_empty (a : String) (s : ℚ) (obs : List Obs)
    (checkbox : Bool) :
    pair_cells a a s obs = ∅ ∧ show_pairwise_guard checkbox a a = false :=
  ⟨pair_cells_self a s obs, by simp [show_pairwise_guard]⟩

/-- C4: grid-cell assignment is floor division with half-open cell
boundaries: whenever kx * s ≤ x < (kx + 1) * s and ky * s ≤ y <
(ky + 1) * s with s > 0, the observation lands in cell (kx, ky), and the
cell is literally (floor (x / s), floor (y / s)); a coordinate exactly
on a multiple of s therefore belongs to the cell starting there. -/
theorem grid_floor_semantics (o : Obs) (s : ℚ) (kx ky : ℤ) (hs : 0 < s)
    (hx1 : (kx : ℚ) * s ≤ o.x) (hx2 : o.x < ((kx : ℚ) + 1) * s)
    (hy1 : (ky : ℚ) * s ≤ o.y) (hy2 : o.y < ((ky : ℚ) + 1) * s) :
    cellOf s o = (kx, ky) ∧ cellOf s o = (⌊o.x / s⌋, ⌊o.y / s⌋) := by
  refine ⟨?_, rfl⟩
  unfold cellOf
  have hx : ⌊o.x / s⌋ = kx := by
    rw [Int.floor_eq_iff]
    exact ⟨(le_div_iff₀ hs).mpr hx1, (div_lt_iff₀ hs).mpr hx2⟩
  have hy : ⌊o.y / s⌋ = ky := by
    rw [Int.floor_eq_iff]
    exact ⟨(le_div_iff₀ hs).mpr hy1, (div_lt_iff₀ hs).mpr hy2⟩
  rw [hx, hy]

/-- C4 instantiation: with cell size 5000, the observation at planar
(4999, 100) lands in cell (0, 0) and the one at (5000, 100) in (1, 0). -/
theorem grid_floor_semantics_witness :
    cellOf 5000 oBoundaryA = (0, 0) ∧ cellOf 5000 oBoundaryB = (1, 0) :=
  ⟨(grid_floor_semantics oBoundaryA 5000 0 0 (by norm_num)
      (by unfold oBoundaryA; norm_num) (by unfold oBoundaryA; norm_num)
      (by unfold oBoundaryA; norm_num) (by unfold oBoundaryA; norm_num)).1,
   (grid_floor_semantics oBoundaryB 5000 1 0 (by norm_num)
      (by unfold oBoundaryB; norm_num) (by unfold oBoundaryB; norm_num)
      (by unfold oBoundaryB; norm_num) (by unfold oBoundaryB; norm_num)).1⟩

/-- C5: general-mode zone count is monotone in the filter: shrinking
the species selection to a subset and the year range to a subinterval
never increases the number of co-occurrence zones. -/
theorem general_zone_count_monotone (s : ℚ) (obs : List Obs)
    (allow allow2 : List String) (y1 y2 y1b y2b : Int) (season : Option String)
    (hsub : ∀ sp ∈ allow2, sp ∈ allow) (hy1 : y1 ≤ y1b) (hy2 : y2b ≤ y2) :
    (general_cells s (filtered allow2 y1b y2b season obs)).card ≤
      (general_cells s (filtered allow y1 y2 season obs)).card := by
  apply Finset.card_le_card
  intro c hc
  rw [mem_general_cells] at hc ⊢
  have hmem : ∀ o ∈ filtered allow2 y1b y2b season obs,
      o ∈ filtered allow y1 y2 season obs := by
    intro o ho
    rw [mem_filtered] at ho ⊢
    exact ⟨⟨ho.1.1, hsub _ ho.1.2.1, by omega, by omega⟩, ho.2⟩
  exact le_trans hc (Finset.card_le_card (speciesIn_mono hmem))

/-- C5 instantiation: the zone count for species selection restricted to
the lion and year range [2005, 2010] is at most the count for the lion
and elephant selection over [2000, 2020]. -/
theorem general_zone_count_monotone_witness :
    (general_cells 5000 (filtered ["Panthera leo"] 2005 2010 none
        [oLion1, oElephant])).card ≤
      (general_cells 5000 (filtered ["Panthera leo", "Loxodonta africana"] 2000 2020 none
        [oLion1, oElephant])).card :=
  general_zone_count_monotone 5000 [oLion1, oElephant]
    ["Panthera leo", "Loxodonta africana"] ["Panthera leo"] 2000 2020 2005 2010 none
    (by intro sp hsp; simp at hsp; simp [hsp]) (by norm_num) (by norm_num)

/-- C6: both detection modes are deterministic, order-independent and
idempotent: any permutation of the observation list yields the same
general and pairwise zone sets, cells and species counts included, so
re-running the detector on the same set reproduces the same zones. -/
theorem detector_order_independent (s : ℚ) (a b : String) (l1 l2 : List Obs)
    (h : l1.Perm l2) :
    general_zones s l1 = general_zones s l2 ∧
      pair_zones a b s l1 = pair_zones a b s l2 := by
  have hpair : (pair_df a b l1).Perm (pair_df a b l2) := h.filter _
  constructor
  · unfold general_zones
    rw [general_cells_perm h]
    have hfun : (fun c : ℤ × ℤ => (c, (speciesIn s l1 c).card)) =
        fun c => (c, (speciesIn s l2 c).card) := by
      funext c
      rw [speciesIn_perm h]
    rw [hfun]
  · unfold pair_zones pair_cells
    rw [occupiedCells_perm hpair]
    rw [Finset.filter_congr fun c _ => by rw [speciesIn_perm hpair]]
    have hfun : (fun c : ℤ × ℤ => (c, (speciesIn s (pair_df a b l1) c).card)) =
        fun c => (c, (speciesIn s (pair_df a b l2) c).card) := by
      funext c
      rw [speciesIn_perm hpair]
    rw [hfun]

/-- C6 instantiation: swapping the two observations changes neither the
general nor the pairwise zone set. -/
theorem detector_order_independent_witness :
    general_zones 5000 [oLion1, oElephant] = general_zones 5000 [oElephant, oLion1] ∧
      pair_zones "Panthera leo" "Loxodonta africana" 5000 [oLion1, oElephant] =
        pair_zones "Panthera leo" "Loxodonta africana" 5000 [oElephant, oLion1] :=
  detector_order_independent 5000 "Panthera leo" "Loxodonta africana"
    [oLion1, oElephant] [oElephant, oLion1] (List.Perm.swap oElephant oLion1 [])

/-- C7 counterexample: the season classifier does not fail on months
outside [1, 12]; it is total, and out-of-domain months fall into the
final else branch and come back as the ordinary season Short Rains,
indistinguishable from a valid answer. -/
theorem season_out_of_domain_counterexample :
    get_season 13 = "Short Rains" ∧ get_season 0 = "Short Rains" ∧
      "Short Rains" ∈ seasons := by
  refine ⟨by decide, by decide, by decide⟩

/-- C7 amended: the season classifier is a total pure function on all
integer months: on [1, 12] it returns the fixed four-season mapping, and
every month outside [1, 12] is not rejected but returns Short Rains via
the catch-all else branch; the result is always one of the four fixed
seasons. -/
theorem season_total_mapping (m : Int) :
    ((m = 12 ∨ m = 1 ∨ m = 2) → get_season m = "Dry") ∧
      ((m = 3 ∨ m = 4 ∨ m = 5) → get_season m = "Long Rains") ∧
      ((m = 6 ∨ m = 7 ∨ m = 8) → get_season m = "Migration Peak") ∧
      ((m = 9 ∨ m = 10 ∨ m = 11) → get_season m = "Short Rains") ∧
      ((m < 1 ∨ 12 < m) → get_season m = "Short Rains") ∧
      get_season m ∈ seasons := by
  refine ⟨?_, ?_, ?_, ?_, ?_, ?_⟩
  · intro h
    unfold get_season
    rw [if_pos h]
  · intro h
    unfold get_season
    rw [if_neg (by omega), if_pos h]
  · intro h
    unfold get_season
    rw [if_neg (by omega), if_neg (by omega), if_pos h]
  · intro h
    unfold get_season
    rw [if_neg (by omega), if_neg (by omega), if_neg (by omega)]
  · intro h
    unfold get_season
    rw [if_neg (by omega), if_neg (by omega), if_neg (by omega)]
  · unfold get_season seasons
    split
    · simp
    · split
      · simp
      · split <;> simp

/-- C7 instantiation: month 0 is classified Short Rains, not rejected. -/
theorem season_total_mapping_witness : get_season 0 = "Short Rains" :=
  (season_total_mapping 0).2.2.2.2.1 (Or.inl (by norm_num))

/-- C9: enrichment drops every row whose event year is outside
[1990, 2025], so every observation entering filtering satisfies the
bound, and widening a year range past those limits matches no additional
observations: filtering the loaded set with any range equals filtering
with the range clamped to [1990, 2025]. -/
theorem enrichment_year_window (rows : List Obs) :
    (∀ o ∈ load_data rows, 1990 ≤ o.year ∧ o.year ≤ 2025) ∧
      ∀ (allow : List String) (y1 y2 : Int) (season : Option String),
        filtered allow y1 y2 season (load_data rows) =
          filtered allow (max y1 1990) (min y2 2025) season (load_data rows) := by
  constructor
  · intro o ho
    exact (mem_load_data.mp ho).2
  · intro allow y1 y2 season
    have hbase : (load_data rows).filter
        (fun o => decide (o.species ∈ allow ∧ y1 ≤ o.year ∧ o.year ≤ y2)) =
          (load_data rows).filter
            (fun o => decide (o.species ∈ allow ∧ max y1 1990 ≤ o.year ∧
              o.year ≤ min y2 2025)) := by
      apply List.filter_congr
      intro o ho
      have hy := (mem_load_data.mp ho).2
      apply decide_eq_decide.mpr
      constructor
      · rintro ⟨h1, h2, h3⟩
        exact ⟨h1, by omega, by omega⟩
      · rintro ⟨h1, h2, h3⟩
        exact ⟨h1, by omega, by omega⟩
    cases season with
    | none => exact hbase
    | some se =>
        show ((load_data rows).filter _).filter _ = ((load_data rows).filter _).filter _
        rw [hbase]

/-- C9 instantiation: a 1980 row is dropped by enrichment while a 2010
row survives with its year inside the window, and extending the slider
range to [1980, 2030] filters identically to the clamped range. -/
theorem enrichment_year_window_witness :
    (1990 ≤ oLion1.year ∧ oLion1.year ≤ 2025) ∧
      filtered ["Panthera leo"] 1980 2030 none (load_data [oOld, oLion1]) =
        filtered ["Panthera leo"] (max 1980 1990) (min 2030 2025) none
          (load_data [oOld, oLion1]) :=
  ⟨(enrichment_year_window [oOld, oLion1]).1 oLion1
      (mem_load_data.mpr ⟨by simp, by norm_num [oLion1], by norm_num [oLion1]⟩),
    (enrichment_year_window [oOld, oLion1]).2 ["Panthera leo"] 1980 2030 none⟩

/-- C10: every pairwise zone cell is also a general-mode zone cell for
the same filtered observations: a cell containing both nominated species
(distinct) has at least two distinct species overall. -/
theorem pairwise_zone_subset_general (a b : String) (s : ℚ) (obs : List Obs)
    (c : ℤ × ℤ) (hab : a ≠ b) (hc : c ∈ pair_cells a b s obs) :
    c ∈ general_cells s obs := by
  rcases (mem_pair_cells hab).mp hc with ⟨⟨oa, hoa, hoas, hoac⟩, ⟨oc, hoc, hocs, hocc⟩⟩
  rw [mem_general_cells]
  have ha : a ∈ speciesIn s obs c := mem_speciesIn.mpr ⟨oa, hoa, hoas, hoac⟩
  have hb : b ∈ speciesIn s obs c := mem_speciesIn.mpr ⟨oc, hoc, hocs, hocc⟩
  have hsup : ({a, b} : Finset String) ⊆ speciesIn s obs c := by
    intro sp hsp
    rcases Finset.mem_insert.mp hsp with rfl | h
    · exact ha
    · rw [Finset.mem_singleton] at h
      exact h ▸ hb
  have h2 := Finset.card_le_card hsup
  rwa [Finset.card_insert_of_not_mem (by simpa using hab), Finset.card_singleton] at h2

/-- C10 instantiation: the lion-and-elephant cell qualifies as a general
co-occurrence zone because it is a pairwise zone. -/
theorem pairwise_zone_subset_general_witness :
    (0, 0) ∈ general_cells 5000 [oLion1, oElephant] :=
  pairwise_zone_subset_general "Panthera leo" "Loxodonta africana" 5000
    [oLion1, oElephant] (0, 0) (by decide)
    ((mem_pair_cells (by decide)).mpr
      ⟨⟨oLion1, by simp, rfl, cellOf_oLion1⟩, ⟨oElephant, by simp, rfl, cellOf_oElephant⟩⟩)

end MasaiMara
